import Mathlib

/-!
Verification of the workflow-orchestration core of the AI_agent repository:
a shallow embedding of `agents/base_agent.py` (the agent execution contract),
`utils/json_validator.py` (workflow schema and dependency validation) and
`langgraph_builder.py` (reference resolution and per-step node execution),
together with theorems settling the specification claims about them.

Python dictionaries are modelled as association lists with unique keys and
first-match lookup; Python `None` is the `PyVal.none` value; a raised Python
exception is an `Except.error` carrying the exception class name and message.
Wall-clock durations and timestamps are environment inputs, passed in as
explicit parameters.
-/

/-- Dynamic Python value: the loosely typed payloads flowing through the
workflow (strings, numbers, booleans, None, lists, dicts). -/
inductive PyVal where
  | none : PyVal
  | bool : Bool → PyVal
  | int : Int → PyVal
  | num : Rat → PyVal
  | str : String → PyVal
  | list : List PyVal → PyVal
  | dict : List (String × PyVal) → PyVal

/-- A raised Python exception: its class name and its message. -/
structure PyErr where
  etype : String
  msg : String
deriving DecidableEq

/-- First-match lookup in an association-list dictionary, `Option`-valued
(the model of `key in d` / `d[key]` presence). -/
def dict_find : List (String × PyVal) → String → Option PyVal
  | [], _ => Option.none
  | (k, v) :: rest, key => if k = key then Option.some v else dict_find rest key

/-- Python `d.get(key, default)`. -/
def pyGetD (d : List (String × PyVal)) (key : String) (dflt : PyVal) : PyVal :=
  match dict_find d key with
  | Option.some v => v
  | Option.none => dflt

/-- Python `d[key] = v`: replace the (unique) existing binding in place, or
append a new binding at the end. -/
def dictSet : List (String × PyVal) → String → PyVal → List (String × PyVal)
  | [], key, v => [(key, v)]
  | (k0, v0) :: rest, key, v =>
    if k0 = key then (k0, v) :: rest else (k0, v0) :: dictSet rest key v

/-- Python truthiness of a value (`bool(v)`). -/
def pyTruthy : PyVal → Bool
  | PyVal.none => false
  | PyVal.bool b => b
  | PyVal.int n => decide (n ≠ 0)
  | PyVal.num q => decide (q ≠ 0)
  | PyVal.str s => decide (s ≠ "")
  | PyVal.list xs => !xs.isEmpty
  | PyVal.dict es => !es.isEmpty

/-- Contiguous-substring test on character lists (Python `sub in s`). -/
def listHasSub (sub : List Char) : List Char → Bool
  | [] => sub.isEmpty
  | c :: cs => sub.isPrefixOf (c :: cs) || listHasSub sub cs

/-- Python `sub in s` on strings. -/
def strIn (sub s : String) : Bool :=
  listHasSub sub.data s.data

/-- Helper for `pySplit`: scan the character list, emitting a chunk each time
the separator occurs; the fuel argument (always at least the list length)
only makes the recursion structural. -/
def pySplitAux (sep : List Char) : Nat → List Char → List Char → List (List Char)
  | _, [], acc => [acc.reverse]
  | 0, l, acc => [acc.reverse ++ l]
  | Nat.succ fuel, c :: cs, acc =>
    if sep.isPrefixOf (c :: cs) then
      acc.reverse :: pySplitAux sep fuel (List.drop sep.length (c :: cs)) []
    else
      pySplitAux sep fuel cs (c :: acc)

/-- Python `s.split(sep)` for a nonempty separator. -/
def pySplit (s sep : String) : List String :=
  (pySplitAux sep.data s.data.length s.data []).map String.mk

/-- Index of the first occurrence of a double closing brace in a character
list, if any. -/
def idxOfCloseBraces : List Char → Option Nat
  | '\x7d' :: '\x7d' :: _ => Option.some 0
  | _ :: cs => Option.map (fun n => n + 1) (idxOfCloseBraces cs)
  | [] => Option.none

/-- Helper for `reGroupFrom`; the fuel argument (always at least the list
length) only makes the recursion structural. -/
def reGroupFromAux : Nat → List Char → Option (List Char)
  | Nat.succ fuel, '\x7b' :: '\x7b' :: rest =>
    (match idxOfCloseBraces (rest.drop 1) with
     | Option.some n => Option.some (rest.take (n + 1))
     | Option.none => reGroupFromAux fuel ('\x7b' :: rest))
  | Nat.succ fuel, _ :: cs => reGroupFromAux fuel cs
  | _, _ => Option.none

/-- Leftmost match of the Python regex pattern of a double opening brace,
a shortest nonempty group, and a double closing brace: at each double opening
brace, the group runs to the first double closing brace at distance at least
one; otherwise the scan moves one character right. -/
def reGroupFrom (l : List Char) : Option (List Char) :=
  reGroupFromAux l.length l

/-- Group of the first delimited reference in a string, as extracted by
`re.search` in `_resolve_input_references`. -/
def reFirstGroup (s : String) : Option String :=
  Option.map String.mk (reGroupFrom s.data)

/-- Python `s.isalnum()` restricted to ASCII: nonempty and every character a
letter or digit. -/
def pyIsAlnum (s : String) : Bool :=
  !s.data.isEmpty && s.data.all Char.isAlphanum

/-- Python list-of-strings repr items: each string quoted, joined by commas. -/
def renderItems : List String → String
  | [] => ""
  | [x] => "\x27" ++ x ++ "\x27"
  | x :: xs => "\x27" ++ x ++ "\x27" ++ ", " ++ renderItems xs

/-- Python repr of a list of strings. -/
def pyShowList (xs : List String) : String :=
  "[" ++ renderItems xs ++ "]"

/-- Static configuration exposed by the config loader: the scoring
configuration and the ideal-customer-profile (target customer) namespace. -/
structure ConfigModel where
  scoring : PyVal
  icp : PyVal

/-! ## Agent contract: `agents/base_agent.py` -/

/-- Mutable per-instance execution statistics of a `BaseAgent`. -/
structure AgentStats where
  execution_count : Nat
  total_execution_time : Rat
  last_execution_time : Option Rat
deriving DecidableEq

/-- Behaviour of a concrete agent subclass: its class name and id, its
`_validate_input` predicate and its `_execute` core logic (which may raise,
modelled as `Except.error`). -/
structure AgentSpec where
  agent_id : String
  agent_name : String
  _validate_input : List (String × PyVal) → Bool
  _execute : List (String × PyVal) → Except PyErr PyVal

namespace BaseAgent

/-- Metadata envelope attached on the success path of `execute`. -/
def successMeta (A : AgentSpec) (dt : Rat) (ts : String) : PyVal :=
  PyVal.dict
    [("agent_name", PyVal.str A.agent_name),
     ("agent_id", PyVal.str A.agent_id),
     ("execution_time", PyVal.num dt),
     ("timestamp", PyVal.str ts),
     ("success", PyVal.bool true)]

/-- Failure result dictionary returned by the `except` branch of `execute`. -/
def failureOutput (A : AgentSpec) (dt : Rat) (ts : String) (e : PyErr) :
    List (String × PyVal) :=
  [("error", PyVal.str e.msg),
   ("error_type", PyVal.str e.etype),
   ("_metadata", PyVal.dict
     [("agent_name", PyVal.str A.agent_name),
      ("agent_id", PyVal.str A.agent_id),
      ("execution_time", PyVal.num dt),
      ("timestamp", PyVal.str ts),
      ("success", PyVal.bool false),
      ("error_message", PyVal.str e.msg)])]

/-- Body of the `try` block of `execute`: the validation check (raising
`ValueError` on a false result), the call to `_execute`, and the metadata
assignment (raising `TypeError` when `_execute` did not return a dict). -/
def attemptBody (A : AgentSpec) (dt : Rat) (ts : String)
    (input_data : List (String × PyVal)) : Except PyErr (List (String × PyVal)) :=
  if A._validate_input input_data = false then
    Except.error ⟨"ValueError", "Input validation failed for " ++ A.agent_name⟩
  else
    match A._execute input_data with
    | Except.error e => Except.error e
    | Except.ok (PyVal.dict entries) =>
      Except.ok (dictSet entries "_metadata" (successMeta A dt ts))
    | Except.ok _ =>
      Except.error ⟨"TypeError", "object does not support item assignment"⟩

/-- The `execute` boundary of `BaseAgent`: returns the output dictionary and
the (possibly updated) instance statistics. Any fault inside the `try` block
is converted into the failure result; statistics are updated just before the
successful return. Logging calls are effect-free in this model. -/
def execute (A : AgentSpec) (stats : AgentStats) (dt : Rat) (ts : String)
    (input_data : List (String × PyVal)) :
    List (String × PyVal) × AgentStats :=
  match attemptBody A dt ts input_data with
  | Except.ok output_data =>
    (output_data,
     { execution_count := stats.execution_count + 1,
       total_execution_time := stats.total_execution_time + dt,
       last_execution_time := Option.some dt })
  | Except.error e => (failureOutput A dt ts e, stats)

/-- The `get_stats` report of a `BaseAgent`, as a Python dictionary. -/
def get_stats (A : AgentSpec) (stats : AgentStats) : List (String × PyVal) :=
  [("agent_name", PyVal.str A.agent_name),
   ("execution_count", PyVal.int stats.execution_count),
   ("total_execution_time", PyVal.num stats.total_execution_time),
   ("average_execution_time", PyVal.num
     (if stats.execution_count > 0 then
        stats.total_execution_time / (stats.execution_count : Rat)
      else 0)),
   ("last_execution_time",
     match stats.last_execution_time with
     | Option.some t => PyVal.num t
     | Option.none => PyVal.none)]

end BaseAgent

/-! ## Workflow schema validation: `utils/json_validator.py` -/

/-- Tool configuration entry of a workflow step. -/
structure ToolConfig where
  name : String
  config : List (String × PyVal)

/-- One step of the declarative workflow document. -/
structure WorkflowStep where
  id : String
  agent : String
  inputs : List (String × PyVal)
  instructions : String
  tools : List ToolConfig
  output_schema : List (String × PyVal)

/-- A schema-validated workflow definition. -/
structure WorkflowDefinition where
  workflow_name : String
  description : String
  steps : List WorkflowStep

/-- Field validator for a step id: the id with underscores removed must be
alphanumeric (Python `v.replace` then `isalnum`). -/
def validate_id (v : String) : Except String String :=
  if pyIsAlnum (String.mk (v.data.filter (fun c => c ≠ '_'))) then Except.ok v
  else Except.error ("Step ID must be alphanumeric with underscores: " ++ v)

/-- Step ids occurring more than once, with repetition, in declaration order
(the `duplicates` list built by `validate_steps`). -/
def duplicate_ids (steps : List WorkflowStep) : List String :=
  let step_ids := steps.map WorkflowStep.id
  step_ids.filter (fun sid => step_ids.count sid > 1)

/-- The `validate_steps` field validator of `WorkflowDefinition`: rejects an
empty step list and duplicate step ids (Python compares the list length with
the length of the set of ids). -/
def validate_steps (v : List WorkflowStep) : Except String (List WorkflowStep) :=
  if v.isEmpty then Except.error "Workflow must have at least one step"
  else
    let step_ids := v.map WorkflowStep.id
    if step_ids.length ≠ step_ids.dedup.length then
      Except.error ("Duplicate step IDs found: " ++ pyShowList (duplicate_ids v))
    else Except.ok v

/-- Per-step id validation, first failure wins (the agent-name validator only
logs a warning and never fails, so it is omitted). -/
def checkStepIds : List WorkflowStep → Except String Unit
  | [] => Except.ok Unit.unit
  | s :: rest =>
    match validate_id s.id with
    | Except.error e => Except.error e
    | Except.ok _ => checkStepIds rest

/-- Schema validation of a raw workflow document (the `WorkflowValidator.validate`
path): step-field validation then the steps-list validator. The pydantic
original collects all violations; this model propagates the first. -/
def workflowValidate (workflow_name description : String)
    (steps : List WorkflowStep) : Except String WorkflowDefinition :=
  match checkStepIds steps with
  | Except.error e => Except.error e
  | Except.ok _ =>
    match validate_steps steps with
    | Except.error e => Except.error e
    | Except.ok ok_steps =>
      Except.ok ⟨workflow_name, description, ok_steps⟩

/-- Root segment of the first delimited reference in a raw input value, as
extracted by `validate_dependencies`: the text after the first double opening
brace, cut at the first dot. -/
def firstRefRoot (v : String) : String :=
  (pySplit ((pySplit v "\x7b\x7b").getD 1 "") ".").headD ""

/-- The `validate_dependencies` check: for each step, each top-level string
input value containing both marker tokens must have a first-reference root
equal to `config` or to a declared step id. Returns `false` (after logging)
on the first violation. -/
def validate_dependencies (wd : WorkflowDefinition) : Bool :=
  let step_ids := wd.steps.map WorkflowStep.id
  wd.steps.all (fun step =>
    step.inputs.all (fun kv =>
      match kv.2 with
      | PyVal.str v =>
        if strIn "\x7b\x7b" v && strIn "\x7d\x7d" v then
          firstRefRoot v = "config" || step_ids.contains (firstRefRoot v)
        else true
      | _ => true))

/-- The `validate_workflow_file` convenience path: schema validation, then the
dependency check whose boolean result the source discards, then the validated
definition is returned. File loading and JSON parsing are out of scope; the
raw document is given directly. -/
def validate_workflow_file (workflow_name description : String)
    (steps : List WorkflowStep) : Except String WorkflowDefinition :=
  match workflowValidate workflow_name description steps with
  | Except.error e => Except.error e
  | Except.ok wd =>
    let _ := validate_dependencies wd
    Except.ok wd

/-! ## Graph builder and executor: `langgraph_builder.py` -/

/-- Error entry appended to the run state's `errors` list. -/
structure ErrorRecord where
  step : String
  error : PyVal
  timestamp : String

/-- The `WorkflowState` flowing through the graph: per-step result slots
(keyed by step id) plus the run-scoped metadata fields. Step ids are assumed
distinct from the metadata keys, as in the repository's workflow. -/
structure WorkflowState where
  workflow_name : String
  execution_id : String
  slots : List (String × PyVal)
  current_step : String
  completed_steps : List String
  errors : List ErrorRecord
  start_time : String
  end_time : String

/-- Rendering of an error record as the Python dictionary appended to
`state["errors"]`. -/
def errToPy (e : ErrorRecord) : PyVal :=
  PyVal.dict
    [("step", PyVal.str e.step),
     ("error", e.error),
     ("timestamp", PyVal.str e.timestamp)]

/-- The run state as the Python dictionary that reference resolution reads:
the step result slots together with the metadata entries. -/
def toStateDict (st : WorkflowState) : List (String × PyVal) :=
  st.slots ++
    [("workflow_name", PyVal.str st.workflow_name),
     ("execution_id", PyVal.str st.execution_id),
     ("current_step", PyVal.str st.current_step),
     ("completed_steps", PyVal.list (st.completed_steps.map PyVal.str)),
     ("errors", PyVal.list (st.errors.map errToPy)),
     ("start_time", PyVal.str st.start_time),
     ("end_time", PyVal.str st.end_time)]

/-- The navigation loop of `_get_nested_value`: walk the dotted-path segments
through nested dictionaries, skipping the transparent `output` keyword, and
degrade to `None` whenever a segment is missing or the current value is not a
dictionary. -/
def navParts : List String → PyVal → PyVal
  | [], value => value
  | part :: rest, value =>
    match value with
    | PyVal.dict entries =>
      if part = "output" then navParts rest (PyVal.dict entries)
      else
        match pyGetD entries part PyVal.none with
        | PyVal.none => PyVal.none
        | v2 => navParts rest v2
    | _ => PyVal.none

/-- Body of `_get_nested_value` on the already-split path segments: the
`config` root dispatches on the second segment (raising `IndexError` when the
path is the bare word `config`); any other root is navigated through the run
state dictionary. -/
def getNestedFromParts (cfg : ConfigModel) (parts : List String)
    (state : List (String × PyVal)) : Except PyErr PyVal :=
  match parts with
  | [] => Except.error ⟨"IndexError", "list index out of range"⟩
  | p0 :: rest =>
    if p0 = "config" then
      match rest with
      | [] => Except.error ⟨"IndexError", "list index out of range"⟩
      | p1 :: _ =>
        if p1 = "scoring" then Except.ok cfg.scoring
        else if p1 = "icp" then Except.ok cfg.icp
        else Except.ok PyVal.none
    else
      Except.ok (navParts (p0 :: rest) (PyVal.dict state))

/-- The `_get_nested_value` resolver: split the dotted path and navigate. -/
def _get_nested_value (cfg : ConfigModel) (path : String)
    (state : List (String × PyVal)) : Except PyErr PyVal :=
  getNestedFromParts cfg (pySplit path ".") state

mutual
/-- Resolution of one input value by `_resolve_input_references`: a string
containing both marker tokens is replaced by the value of its first delimited
reference; nested dictionaries recurse; lists recurse into their dictionary
elements only; everything else passes through. -/
def _resolve_value (cfg : ConfigModel) (state : List (String × PyVal)) :
    PyVal → Except PyErr PyVal
  | PyVal.str s =>
    if strIn "\x7b\x7b" s && strIn "\x7d\x7d" s then
      match reFirstGroup s with
      | Option.some ref_path => _get_nested_value cfg ref_path state
      | Option.none => Except.ok (PyVal.str s)
    else Except.ok (PyVal.str s)
  | PyVal.dict entries =>
    match _resolve_input_references cfg state entries with
    | Except.error e => Except.error e
    | Except.ok rs => Except.ok (PyVal.dict rs)
  | PyVal.list items =>
    match _resolve_list cfg state items with
    | Except.error e => Except.error e
    | Except.ok rs => Except.ok (PyVal.list rs)
  | v => Except.ok v

/-- The `_resolve_input_references` mapping: resolve each input entry's value
in order; a raised fault propagates from the first offending entry. -/
def _resolve_input_references (cfg : ConfigModel) (state : List (String × PyVal)) :
    List (String × PyVal) → Except PyErr (List (String × PyVal))
  | [] => Except.ok []
  | (key, value) :: rest =>
    match _resolve_value cfg state value with
    | Except.error e => Except.error e
    | Except.ok rv =>
      match _resolve_input_references cfg state rest with
      | Except.error e => Except.error e
      | Except.ok rs => Except.ok ((key, rv) :: rs)

/-- The list comprehension inside `_resolve_input_references`: dictionary
elements recurse, any other element passes through unchanged. -/
def _resolve_list (cfg : ConfigModel) (state : List (String × PyVal)) :
    List PyVal → Except PyErr (List PyVal)
  | [] => Except.ok []
  | PyVal.dict entries :: rest =>
    match _resolve_input_references cfg state entries with
    | Except.error e => Except.error e
    | Except.ok rs =>
      match _resolve_list cfg state rest with
      | Except.error e => Except.error e
      | Except.ok rrest => Except.ok (PyVal.dict rs :: rrest)
  | item :: rest =>
    match _resolve_list cfg state rest with
    | Except.error e => Except.error e
    | Except.ok rrest => Except.ok (item :: rrest)
end

/-- Success flag read by the node from an agent result:
`output.get("_metadata", dict()).get("success", True)`. The execute contract
always stores a dictionary under `_metadata`, so the non-dictionary fallback
defaults to true as the source would only reach it by raising. -/
def metaSuccessVal (output : List (String × PyVal)) : PyVal :=
  match pyGetD output "_metadata" (PyVal.dict []) with
  | PyVal.dict m => pyGetD m "success" (PyVal.bool true)
  | _ => PyVal.bool true

/-- The `self.agents.get(agent_name)` registry lookup. -/
def agents_get (agents : List (String × AgentSpec)) (name : String) :
    Option AgentSpec :=
  match List.find? (fun kv => kv.1 = name) agents with
  | Option.some kv => Option.some kv.2
  | Option.none => Option.none

/-- The node function created for one workflow step. Agent lookup failure
appends an error record and returns the state untouched. Input-reference
resolution happens before the `try` block, so a fault raised there escapes the
node (`Except.error`). Inside the `try`: the agent executes, a failure
result appends an error record, and the output is stored under the step id,
the current step is set, and the step id is appended to the completed list
(the assignment of the singleton list feeds the graph's additive reducer).
The agent's updated statistics are instance state, dropped here. -/
def node_function (cfg : ConfigModel) (agents : List (String × AgentSpec))
    (astats : AgentStats) (step : WorkflowStep) (dt : Rat) (ts : String)
    (state : WorkflowState) : Except PyErr WorkflowState :=
  match agents_get agents step.agent with
  | Option.none =>
    Except.ok { state with
      errors := state.errors ++
        [⟨step.id, PyVal.str ("Agent " ++ step.agent ++ " not found"), ts⟩] }
  | Option.some agent =>
    match _resolve_input_references cfg (toStateDict state) step.inputs with
    | Except.error e => Except.error e
    | Except.ok agent_input =>
      let output := (BaseAgent.execute agent astats dt ts agent_input).1
      let errs :=
        if pyTruthy (metaSuccessVal output) then state.errors
        else state.errors ++
          [⟨step.id, pyGetD output "error" (PyVal.str "Unknown error"), ts⟩]
      Except.ok { state with
        slots := dictSet state.slots step.id (PyVal.dict output),
        current_step := step.id,
        completed_steps := state.completed_steps ++ [step.id],
        errors := errs }

mutual
/-- Modelled from the spec: the collection of path-reference roots found
anywhere in an input value, including references nested inside dictionary
values and list elements. The source has no such collector; this definition
follows the specification's notion of a path-reference found in an
input-mapping, for comparison with `validate_dependencies`. -/
def specRefRoots : PyVal → List String
  | PyVal.str s =>
    if strIn "\x7b\x7b" s && strIn "\x7d\x7d" s then [firstRefRoot s] else []
  | PyVal.dict entries => specRefRootsEntries entries
  | PyVal.list items => specRefRootsList items
  | _ => []

/-- Modelled from the spec: reference roots of all values of a mapping. -/
def specRefRootsEntries : List (String × PyVal) → List String
  | [] => []
  | (_, v) :: rest => specRefRoots v ++ specRefRootsEntries rest

/-- Modelled from the spec: reference roots of all elements of a list. -/
def specRefRootsList : List PyVal → List String
  | [] => []
  | v :: rest => specRefRoots v ++ specRefRootsList rest
end

/-- Modelled from the spec: all reference roots of a workflow's steps. -/
def specWorkflowRefRoots (wd : WorkflowDefinition) : List String :=
  (wd.steps.map (fun step => specRefRootsEntries step.inputs)).flatten

/-! ## Helper lemmas -/

/-- Assignment followed by lookup of the same key yields the assigned value. -/
theorem dict_find_dictSet_self (d : List (String × PyVal)) (k : String) (v : PyVal) :
    dict_find (dictSet d k v) k = Option.some v := by
  induction d with
  | nil => simp [dictSet, dict_find]
  | cons h t ih =>
    obtain ⟨k0, v0⟩ := h
    by_cases hk : k0 = k
    · simp [dictSet, hk, dict_find]
    · simp [dictSet, hk, dict_find, ih]

/-- The failure result of `execute` reports an unsuccessful metadata flag. -/
theorem metaSuccessVal_failureOutput (A : AgentSpec) (dt : Rat) (ts : String) (e : PyErr) :
    metaSuccessVal (BaseAgent.failureOutput A dt ts e) = PyVal.bool false := rfl

/-- After the success-path metadata assignment, the metadata flag reads true. -/
theorem metaSuccessVal_successSet (A : AgentSpec) (dt : Rat) (ts : String)
    (d : List (String × PyVal)) :
    metaSuccessVal (dictSet d "_metadata" (BaseAgent.successMeta A dt ts)) = PyVal.bool true := by
  simp [metaSuccessVal, pyGetD, dict_find_dictSet_self, BaseAgent.successMeta, dict_find]

/-- A successful `attemptBody` result is exactly the core output with the
success metadata assigned. -/
theorem attemptBody_ok (A : AgentSpec) (dt : Rat) (ts : String)
    (input_data d : List (String × PyVal))
    (h : BaseAgent.attemptBody A dt ts input_data = Except.ok d) :
    ∃ entries, A._execute input_data = Except.ok (PyVal.dict entries) ∧
      d = dictSet entries "_metadata" (BaseAgent.successMeta A dt ts) := by
  unfold BaseAgent.attemptBody at h
  by_cases hv : A._validate_input input_data = false
  · simp [hv] at h
  · simp [hv] at h
    cases he : A._execute input_data with
    | error e => rw [he] at h; simp at h
    | ok v =>
      cases v with
      | dict entries =>
        rw [he] at h; simp at h
        exact ⟨entries, rfl, h.symm⟩
      | none => rw [he] at h; simp at h
      | bool b => rw [he] at h; simp at h
      | int n => rw [he] at h; simp at h
      | num q => rw [he] at h; simp at h
      | str s => rw [he] at h; simp at h
      | list xs => rw [he] at h; simp at h

/-! ## Agent fixtures used by witnesses and counterexamples -/

/-- Fresh statistics of a newly constructed agent. -/
def stats0 : AgentStats := ⟨0, 0, Option.none⟩

/-- An agent whose core logic raises. -/
def boomAgent : AgentSpec :=
  ⟨"a_boom", "BoomAgent", fun _ => true, fun _ => Except.error ⟨"RuntimeError", "boom"⟩⟩

/-- An agent whose input validation rejects everything. -/
def rejectAgent : AgentSpec :=
  ⟨"a_reject", "RejectAgent", fun _ => false, fun _ => Except.ok (PyVal.dict [])⟩

/-- An agent whose core logic succeeds with a small payload. -/
def okAgent : AgentSpec :=
  ⟨"a_ok", "OkAgent", fun _ => true,
   fun _ => Except.ok (PyVal.dict [("leads", PyVal.list [PyVal.int 1, PyVal.int 2])])⟩

/-! ## Claim C1 -/

/-- C1: `BaseAgent.execute` never raises: it is a total function into result
dictionaries. A metadata envelope is present on every path; when the core
logic `_execute` raises, the fault's message and kind are returned under the
`error` and `error_type` keys with the metadata success flag false; on the
success path the metadata success flag is true. -/
theorem execute_error_boundary (A : AgentSpec) (stats : AgentStats) (dt : Rat)
    (ts : String) (input_data : List (String × PyVal)) :
    (∃ m, dict_find (BaseAgent.execute A stats dt ts input_data).1 "_metadata" = Option.some m)
    ∧ (∀ e, A._validate_input input_data = true →
        A._execute input_data = Except.error e →
        dict_find (BaseAgent.execute A stats dt ts input_data).1 "error"
            = Option.some (PyVal.str e.msg)
          ∧ dict_find (BaseAgent.execute A stats dt ts input_data).1 "error_type"
            = Option.some (PyVal.str e.etype)
          ∧ metaSuccessVal (BaseAgent.execute A stats dt ts input_data).1 = PyVal.bool false)
    ∧ (∀ d, A._validate_input input_data = true →
        A._execute input_data = Except.ok (PyVal.dict d) →
        metaSuccessVal (BaseAgent.execute A stats dt ts input_data).1 = PyVal.bool true) := by
  refine ⟨?_, ?_, ?_⟩
  · cases h : BaseAgent.attemptBody A dt ts input_data with
    | ok d =>
      obtain ⟨entries, _, hd⟩ := attemptBody_ok A dt ts input_data d h
      refine ⟨BaseAgent.successMeta A dt ts, ?_⟩
      simp [BaseAgent.execute, h, hd, dict_find_dictSet_self]
    | error e =>
      refine ⟨PyVal.dict
        [("agent_name", PyVal.str A.agent_name), ("agent_id", PyVal.str A.agent_id),
         ("execution_time", PyVal.num dt), ("timestamp", PyVal.str ts),
         ("success", PyVal.bool false), ("error_message", PyVal.str e.msg)], ?_⟩
      simp only [BaseAgent.execute, h]
      rfl
  · intro e hv he
    have h : BaseAgent.attemptBody A dt ts input_data = Except.error e := by
      simp [BaseAgent.attemptBody, hv, he]
    simp only [BaseAgent.execute, h]
    exact ⟨rfl, rfl, metaSuccessVal_failureOutput A dt ts e⟩
  · intro d hv he
    have h : BaseAgent.attemptBody A dt ts input_data
        = Except.ok (dictSet d "_metadata" (BaseAgent.successMeta A dt ts)) := by
      simp [BaseAgent.attemptBody, hv, he]
    simp [BaseAgent.execute, h, metaSuccessVal_successSet]

/-- Witness for C1 at a concrete raising agent. -/
theorem execute_error_boundary_witness :
    boomAgent._validate_input [] = true
    ∧ boomAgent._execute [] = Except.error ⟨"RuntimeError", "boom"⟩
    ∧ dict_find (BaseAgent.execute boomAgent stats0 1 "t" []).1 "error"
        = Option.some (PyVal.str "boom")
    ∧ metaSuccessVal (BaseAgent.execute boomAgent stats0 1 "t" []).1 = PyVal.bool false :=
  ⟨rfl, rfl,
   ((execute_error_boundary boomAgent stats0 1 "t" []).2.1 ⟨"RuntimeError", "boom"⟩ rfl rfl).1,
   ((execute_error_boundary boomAgent stats0 1 "t" []).2.1 ⟨"RuntimeError", "boom"⟩ rfl rfl).2.2⟩

/-! ## Claim C6 -/

/-- C6: when `_validate_input` returns false, `execute` returns a failure
result whose error message is exactly the validation message with the agent's
class name, the metadata success flag is false, and the core logic `_execute`
is never invoked: the outcome is unchanged under any replacement of the core
logic. -/
theorem validation_failure_short_circuits (A : AgentSpec) (stats : AgentStats)
    (dt : Rat) (ts : String) (input_data : List (String × PyVal))
    (h : A._validate_input input_data = false) :
    dict_find (BaseAgent.execute A stats dt ts input_data).1 "error"
      = Option.some (PyVal.str ("Input validation failed for " ++ A.agent_name))
    ∧ metaSuccessVal (BaseAgent.execute A stats dt ts input_data).1 = PyVal.bool false
    ∧ ∀ g, BaseAgent.execute ⟨A.agent_id, A.agent_name, A._validate_input, g⟩
        stats dt ts input_data = BaseAgent.execute A stats dt ts input_data := by
  have hb : BaseAgent.attemptBody A dt ts input_data
      = Except.error ⟨"ValueError", "Input validation failed for " ++ A.agent_name⟩ := by
    simp [BaseAgent.attemptBody, h]
  refine ⟨?_, ?_, ?_⟩
  · simp only [BaseAgent.execute, hb]
    rfl
  · simp only [BaseAgent.execute, hb]
    exact metaSuccessVal_failureOutput A dt ts _
  · intro g
    have hb2 : BaseAgent.attemptBody ⟨A.agent_id, A.agent_name, A._validate_input, g⟩
        dt ts input_data
        = Except.error ⟨"ValueError", "Input validation failed for " ++ A.agent_name⟩ := by
      simp [BaseAgent.attemptBody, h]
    simp only [BaseAgent.execute, hb, hb2]
    simp [BaseAgent.failureOutput]

/-- Witness for C6 at a concrete rejecting agent. -/
theorem validation_failure_short_circuits_witness :
    rejectAgent._validate_input [("x", PyVal.int 1)] = false
    ∧ dict_find (BaseAgent.execute rejectAgent stats0 1 "t" [("x", PyVal.int 1)]).1 "error"
        = Option.some (PyVal.str "Input validation failed for RejectAgent") :=
  ⟨rfl, (validation_failure_short_circuits rejectAgent stats0 1 "t" [("x", PyVal.int 1)] rfl).1⟩

/-! ## Claim C10 -/

/-- C10: execution statistics are updated only on the success path: any call
to `execute` returning a failure result leaves the statistics record
unchanged, and `get_stats` reports a zero average execution time when the
execution count is zero, with no division by zero. -/
theorem stats_updated_only_on_success :
    (∀ (A : AgentSpec) (stats : AgentStats) (dt : Rat) (ts : String)
        (input_data : List (String × PyVal)),
      pyTruthy (metaSuccessVal (BaseAgent.execute A stats dt ts input_data).1) = false →
      (BaseAgent.execute A stats dt ts input_data).2 = stats)
    ∧ (∀ (A : AgentSpec) (stats : AgentStats), stats.execution_count = 0 →
        pyGetD (BaseAgent.get_stats A stats) "average_execution_time" PyVal.none
          = PyVal.num 0) := by
  constructor
  · intro A stats dt ts input_data hfail
    cases h : BaseAgent.attemptBody A dt ts input_data with
    | error e => simp [BaseAgent.execute, h]
    | ok d =>
      exfalso
      obtain ⟨entries, _, hd⟩ := attemptBody_ok A dt ts input_data d h
      rw [BaseAgent.execute] at hfail
      rw [h] at hfail
      simp only [hd, metaSuccessVal_successSet] at hfail
      simp [pyTruthy] at hfail
  · intro A stats h
    simp only [BaseAgent.get_stats, h]
    rfl

/-- Witness for C10: a rejected call leaves fresh statistics unchanged, and
the fresh statistics report a zero average. -/
theorem stats_updated_only_on_success_witness :
    (BaseAgent.execute rejectAgent stats0 1 "t" []).2 = stats0
    ∧ pyGetD (BaseAgent.get_stats rejectAgent stats0) "average_execution_time" PyVal.none
        = PyVal.num 0 :=
  ⟨stats_updated_only_on_success.1 rejectAgent stats0 1 "t" [] rfl,
   stats_updated_only_on_success.2 rejectAgent stats0 rfl⟩

/-! ## Workflow fixtures -/

/-- A minimal well-formed step with a given id and no references. -/
def dupStep (i : String) : WorkflowStep :=
  ⟨i, "ScoringAgent", [], "", [], []⟩

/-- A search step with a literal input. -/
def stepSearch : WorkflowStep :=
  ⟨"search", "ProspectSearchAgent", [("max_leads", PyVal.int 10)], "", [], []⟩

/-- A step whose top-level input value references a step id that is not
declared anywhere. -/
def stepBadRef : WorkflowStep :=
  ⟨"score", "ScoringAgent",
   [("leads", PyVal.str "\x7b\x7bmissing.output.leads\x7d\x7d")], "", [], []⟩

/-- A step whose dangling reference is nested inside a dictionary value. -/
def stepNestedRef : WorkflowStep :=
  ⟨"score", "ScoringAgent",
   [("settings", PyVal.dict
     [("leads", PyVal.str "\x7b\x7bmissing.output.leads\x7d\x7d")])], "", [], []⟩

/-- A step with a well-formed reference to the declared `search` step. -/
def stepGoodRef : WorkflowStep :=
  ⟨"score", "ScoringAgent",
   [("leads", PyVal.str "\x7b\x7bsearch.output.leads\x7d\x7d")], "", [], []⟩

/-- Workflow whose second step references a nonexistent step at top level. -/
def badRefWorkflowSteps : List WorkflowStep := [stepSearch, stepBadRef]

/-- Workflow whose dangling reference is nested inside a dictionary value. -/
def nestedRefWorkflow : WorkflowDefinition := ⟨"w", "d", [stepSearch, stepNestedRef]⟩

/-- Workflow with only resolvable references. -/
def goodWorkflow : WorkflowDefinition := ⟨"w", "d", [stepSearch, stepGoodRef]⟩

/-! ## Claim C8 -/

/-- C8 counterexample: a document with the duplicated id `zz` whose first
step id `b@` is malformed fails on the id-format check, and the duplicated id
appears nowhere in the reported error: the duplicate-ids report is only
reached when every id passes the format check. -/
theorem duplicate_id_error_report_counterexample :
    workflowValidate "w" "d" [dupStep "b@", dupStep "zz", dupStep "zz"]
      = Except.error "Step ID must be alphanumeric with underscores: b@"
    ∧ strIn "zz" "Step ID must be alphanumeric with underscores: b@" = false
    ∧ List.Duplicate "zz"
        (([dupStep "b@", dupStep "zz", dupStep "zz"]).map WorkflowStep.id) :=
  ⟨rfl, rfl, List.duplicate_iff_two_le_count.mpr (by decide)⟩

/-- C8 amended: a workflow document in which two steps share an id never
validates: schema validation returns an error, and whenever the per-id format
checks pass (so that the steps-list validator is the one that fires) the
reported error is the duplicate-ids message whose duplicates list contains
the shared id. -/
theorem duplicate_ids_rejected (workflow_name description : String)
    (steps : List WorkflowStep) (sid : String)
    (hdup : List.Duplicate sid (steps.map WorkflowStep.id)) :
    (∃ m, workflowValidate workflow_name description steps = Except.error m)
    ∧ (checkStepIds steps = Except.ok Unit.unit →
        workflowValidate workflow_name description steps
          = Except.error ("Duplicate step IDs found: " ++ pyShowList (duplicate_ids steps))
        ∧ sid ∈ duplicate_ids steps) := by
  have hids : ¬ (steps.map WorkflowStep.id).Nodup := hdup.not_nodup
  have hlen : (steps.map WorkflowStep.id).length ≠ (steps.map WorkflowStep.id).dedup.length := by
    intro hlen
    exact hids (List.dedup_eq_self.mp
      (List.Sublist.eq_of_length (List.dedup_sublist _) hlen.symm))
  have hne : steps.isEmpty = false := by
    cases steps with
    | nil => simp at hdup
    | cons a l => rfl
  have hlen2 : steps.length ≠ (steps.map WorkflowStep.id).dedup.length := by
    simpa using hlen
  have hvs : validate_steps steps
      = Except.error ("Duplicate step IDs found: " ++ pyShowList (duplicate_ids steps)) := by
    simp [validate_steps, hne, hlen, hlen2]
  have hmem : sid ∈ duplicate_ids steps := by
    unfold duplicate_ids
    rw [List.mem_filter]
    refine ⟨hdup.mem, ?_⟩
    have h2 := List.duplicate_iff_two_le_count.mp hdup
    simp only [decide_eq_true_eq]
    omega
  constructor
  · cases hc : checkStepIds steps with
    | error e => exact ⟨e, by simp [workflowValidate, hc]⟩
    | ok u =>
      cases u
      refine ⟨"Duplicate step IDs found: " ++ pyShowList (duplicate_ids steps), ?_⟩
      simp [workflowValidate, hc, hvs]
  · intro hok
    exact ⟨by simp [workflowValidate, hok, hvs], hmem⟩

/-- Witness for C8 at a concrete workflow with two steps both named `a`. -/
theorem duplicate_ids_rejected_witness :
    workflowValidate "w" "d" [dupStep "a", dupStep "a"]
      = Except.error ("Duplicate step IDs found: "
          ++ pyShowList (duplicate_ids [dupStep "a", dupStep "a"]))
    ∧ "a" ∈ duplicate_ids [dupStep "a", dupStep "a"] :=
  (duplicate_ids_rejected "w" "d" [dupStep "a", dupStep "a"] "a"
    (List.duplicate_iff_two_le_count.mpr (by decide))).2 rfl

/-! ## Claim C4 -/

/-- C4 counterexample: a workflow whose second step references the
nonexistent step `missing` still makes `validate_workflow_file` return the
ready `WorkflowDefinition`, even though `validate_dependencies` reports
failure: the dependency failure is not propagated. -/
theorem validate_workflow_file_returns_despite_bad_dependency :
    validate_workflow_file "w" "d" badRefWorkflowSteps
      = Except.ok ⟨"w", "d", badRefWorkflowSteps⟩
    ∧ validate_dependencies ⟨"w", "d", badRefWorkflowSteps⟩ = false :=
  ⟨rfl, rfl⟩

/-- C4 amended: `validate_workflow_file` performs schema validation and then
the dependency check, but discards the dependency check's boolean result: its
outcome is always exactly the outcome of schema validation, so a dependency
failure is never propagated. -/
theorem validate_workflow_file_ignores_dependency_result
    (workflow_name description : String) (steps : List WorkflowStep) :
    validate_workflow_file workflow_name description steps
      = workflowValidate workflow_name description steps := by
  unfold validate_workflow_file
  cases h : workflowValidate workflow_name description steps <;> simp [h]

/-! ## Claim C5 -/

/-- C5 counterexample: a dangling reference nested inside a dictionary input
value is a path-reference of the workflow in the specification's sense, with a
root that is neither `config` nor a declared step id, yet
`validate_dependencies` succeeds: only top-level string values are scanned. -/
theorem validate_dependencies_nested_ref_counterexample :
    validate_dependencies nestedRefWorkflow = true
    ∧ "missing" ∈ specWorkflowRefRoots nestedRefWorkflow
    ∧ "missing" ≠ "config"
    ∧ "missing" ∉ nestedRefWorkflow.steps.map WorkflowStep.id := by
  refine ⟨rfl, ?_, by decide, by decide⟩
  show "missing" ∈ specWorkflowRefRoots nestedRefWorkflow
  have : specWorkflowRefRoots nestedRefWorkflow = ["missing"] := rfl
  rw [this]
  exact List.mem_singleton.mpr rfl

/-- C5 amended: `validate_dependencies` succeeds exactly when, for every
top-level string input value of every step that contains both marker tokens,
the root segment of the value's first reference (the text between the first
double opening brace and the first following dot) is the literal `config` or a
declared step id; references nested inside dictionary values or list elements
are not examined, and the failure is reported by returning false after
logging the offending step and reference. -/
theorem validate_dependencies_top_level_iff (wd : WorkflowDefinition) :
    validate_dependencies wd = true ↔
      ∀ step ∈ wd.steps, ∀ kv ∈ step.inputs, ∀ s, kv.2 = PyVal.str s →
        strIn "\x7b\x7b" s = true → strIn "\x7d\x7d" s = true →
        (firstRefRoot s = "config"
          ∨ firstRefRoot s ∈ wd.steps.map WorkflowStep.id) := by
  unfold validate_dependencies
  rw [List.all_eq_true]
  constructor
  · intro h step hstep kv hkv s hs h1 h2
    have h3 := h step hstep
    rw [List.all_eq_true] at h3
    have h4 := h3 kv hkv
    rw [hs] at h4
    simp only [h1, h2, Bool.and_self, if_true] at h4
    rcases Bool.or_eq_true_iff.mp h4 with h5 | h5
    · exact Or.inl (by simpa using h5)
    · exact Or.inr (by simpa using h5)
  · intro h step hstep
    rw [List.all_eq_true]
    intro kv hkv
    cases hv : kv.2 with
    | str s =>
      by_cases h12 : strIn "\x7b\x7b" s = true ∧ strIn "\x7d\x7d" s = true
      · obtain ⟨h1, h2⟩ := h12
        simp only [h1, h2, Bool.and_self, if_true]
        rcases h step hstep kv hkv s hv h1 h2 with h5 | h5
        · simp [h5]
        · simp [h5]
      · rcases Decidable.not_and_iff_or_not.mp h12 with h1 | h1 <;>
        · simp only [Bool.not_eq_true] at h1
          simp [h1]
    | none => simp
    | bool b => simp
    | int n => simp
    | num q => simp
    | list xs => simp
    | dict es => simp

/-- Witness for C5's amended theorem: on the workflow with a resolvable
reference, the forward direction yields the root condition for the concrete
referencing input. -/
theorem validate_dependencies_top_level_iff_witness :
    firstRefRoot "\x7b\x7bsearch.output.leads\x7d\x7d" = "config"
    ∨ firstRefRoot "\x7b\x7bsearch.output.leads\x7d\x7d"
        ∈ goodWorkflow.steps.map WorkflowStep.id :=
  (validate_dependencies_top_level_iff goodWorkflow).mp rfl stepGoodRef
    (List.mem_cons_of_mem _ (List.mem_singleton.mpr rfl))
    ("leads", PyVal.str "\x7b\x7bsearch.output.leads\x7d\x7d")
    (List.mem_singleton.mpr rfl)
    "\x7b\x7bsearch.output.leads\x7d\x7d" rfl rfl rfl

/-! ## Claim C7 -/

/-- Concrete configuration used by witnesses. -/
def cfg0 : ConfigModel :=
  ⟨PyVal.dict [("icp_fit", PyVal.num 1)],
   PyVal.dict [("industry", PyVal.list [PyVal.str "SaaS"])]⟩

/-- C7: `_get_nested_value` degrades to the `None` sentinel instead of
raising: when the root segment (a step id, so neither `config` nor the
transparent `output` keyword) is absent from the state dictionary; at any
navigation point where the next segment is missing from the current nested
dictionary; and when a `config` reference's second segment names an unknown
configuration namespace (neither `scoring` nor `icp`). -/
theorem get_nested_value_misses :
    (∀ (cfg : ConfigModel) (root : String) (rest : List String)
        (state : List (String × PyVal)),
      root ≠ "config" → root ≠ "output" →
      pyGetD state root PyVal.none = PyVal.none →
      getNestedFromParts cfg (root :: rest) state = Except.ok PyVal.none)
    ∧ (∀ (p : String) (ps : List String) (d : List (String × PyVal)),
        p ≠ "output" → pyGetD d p PyVal.none = PyVal.none →
        navParts (p :: ps) (PyVal.dict d) = PyVal.none)
    ∧ (∀ (cfg : ConfigModel) (p1 : String) (rest : List String)
        (state : List (String × PyVal)),
      p1 ≠ "scoring" → p1 ≠ "icp" →
      getNestedFromParts cfg ("config" :: p1 :: rest) state = Except.ok PyVal.none) := by
  refine ⟨?_, ?_, ?_⟩
  · intro cfg root rest state hconf hout hget
    simp [getNestedFromParts, hconf, navParts, hout, hget]
  · intro p ps d hout hget
    simp [navParts, hout, hget]
  · intro cfg p1 rest state h1 h2
    simp [getNestedFromParts, h1, h2]

/-- Witness for C7: an absent root step and an unknown config namespace both
resolve to the sentinel. -/
theorem get_nested_value_misses_witness :
    _get_nested_value cfg0 "missing.leads" [] = Except.ok PyVal.none
    ∧ _get_nested_value cfg0 "config.unknown" [] = Except.ok PyVal.none :=
  ⟨get_nested_value_misses.1 cfg0 "missing" ["leads"] [] (by decide) (by decide) rfl,
   get_nested_value_misses.2.2 cfg0 "unknown" [] [] (by decide) (by decide)⟩

/-! ## Node-level fixtures -/

/-- Fresh run state at the start of a run. -/
def st0 : WorkflowState := ⟨"wf", "exec_1", [], "", [], [], "t0", ""⟩

/-- Concrete agent registry. -/
def agents0 : List (String × AgentSpec) :=
  [("RejectAgent", rejectAgent), ("OkAgent", okAgent)]

/-- A step whose input holds a bare `config` reference with no second
segment, making `_get_nested_value` raise `IndexError`. -/
def stepBadResolve : WorkflowStep :=
  ⟨"s1", "OkAgent", [("x", PyVal.str "\x7b\x7bconfig\x7d\x7d")], "", [], []⟩

/-- A step on the registered succeeding agent with no references. -/
def stepOkNode : WorkflowStep := ⟨"s1", "OkAgent", [], "", [], []⟩

/-- A step on the registered always-rejecting agent. -/
def stepRejectNode : WorkflowStep := ⟨"s1", "RejectAgent", [], "", [], []⟩

/-! ## Claim C2 -/

/-- C2 counterexample: a step whose agent reports failure (metadata success
false) gets an error record appended, yet its id is still appended to the
completed list: the completion mark is unconditional, not success-only. -/
theorem node_failure_marks_completed_counterexample :
    node_function cfg0 agents0 stats0 stepRejectNode 1 "t" st0
      = Except.ok
        { st0 with
          slots := [("s1", PyVal.dict (BaseAgent.failureOutput rejectAgent 1 "t"
            ⟨"ValueError", "Input validation failed for RejectAgent"⟩))],
          current_step := "s1",
          completed_steps := ["s1"],
          errors := [⟨"s1", PyVal.str "Input validation failed for RejectAgent", "t"⟩] }
    ∧ metaSuccessVal (BaseAgent.execute rejectAgent stats0 1 "t" []).1 = PyVal.bool false :=
  ⟨rfl, rfl⟩

/-- C2 amended: after a step's agent executes, the full result is stored
under the step id and the step id is appended to the completed list
regardless of success; an error record carrying the reported error message is
appended exactly when the result's metadata indicates failure. -/
theorem node_function_marks_completed_regardless
    (cfg : ConfigModel) (agents : List (String × AgentSpec)) (astats : AgentStats)
    (step : WorkflowStep) (dt : Rat) (ts : String) (state : WorkflowState)
    (agent : AgentSpec) (agent_input : List (String × PyVal))
    (hagent : agents_get agents step.agent = Option.some agent)
    (hres : _resolve_input_references cfg (toStateDict state) step.inputs
      = Except.ok agent_input) :
    node_function cfg agents astats step dt ts state = Except.ok
      { state with
        slots := dictSet state.slots step.id
          (PyVal.dict (BaseAgent.execute agent astats dt ts agent_input).1),
        current_step := step.id,
        completed_steps := state.completed_steps ++ [step.id],
        errors :=
          if pyTruthy (metaSuccessVal (BaseAgent.execute agent astats dt ts agent_input).1)
          then state.errors
          else state.errors ++
            [⟨step.id,
              pyGetD (BaseAgent.execute agent astats dt ts agent_input).1 "error"
                (PyVal.str "Unknown error"), ts⟩] } := by
  simp only [node_function, hagent, hres]

/-- Witness for C2's amended theorem at the concrete succeeding step. -/
theorem node_function_marks_completed_regardless_witness :
    node_function cfg0 agents0 stats0 stepOkNode 1 "t" st0 = Except.ok
      { st0 with
        slots := dictSet st0.slots "s1"
          (PyVal.dict (BaseAgent.execute okAgent stats0 1 "t" []).1),
        current_step := "s1",
        completed_steps := st0.completed_steps ++ ["s1"],
        errors := st0.errors } :=
  node_function_marks_completed_regardless cfg0 agents0 stats0 stepOkNode 1 "t" st0
    okAgent [] rfl rfl

/-! ## Claim C3 -/

/-- C3 counterexample: a fault raised while resolving the node's input
references (here the bare `config` reference raising `IndexError`) is not
converted into an error record: it escapes the node function and aborts the
run, because resolution happens before the `try` block. -/
theorem resolution_fault_escapes_node_counterexample :
    node_function cfg0 agents0 stats0 stepBadResolve 1 "t" st0
      = Except.error ⟨"IndexError", "list index out of range"⟩ := rfl

/-- C3 amended: with the step's agent registered, a fault raised during
input-reference resolution propagates out of the node unconverted, while the
remaining node processing (agent execution and result handling) never lets a
fault escape: it always produces an updated state. -/
theorem node_fault_boundary
    (cfg : ConfigModel) (agents : List (String × AgentSpec)) (astats : AgentStats)
    (step : WorkflowStep) (dt : Rat) (ts : String) (state : WorkflowState)
    (agent : AgentSpec)
    (hagent : agents_get agents step.agent = Option.some agent) :
    (∀ e, _resolve_input_references cfg (toStateDict state) step.inputs
        = Except.error e →
      node_function cfg agents astats step dt ts state = Except.error e)
    ∧ (∀ inp, _resolve_input_references cfg (toStateDict state) step.inputs
        = Except.ok inp →
      ∃ st2, node_function cfg agents astats step dt ts state = Except.ok st2) := by
  constructor
  · intro e he
    simp only [node_function, hagent, he]
  · intro inp hinp
    refine ⟨{ state with
      slots := dictSet state.slots step.id
        (PyVal.dict (BaseAgent.execute agent astats dt ts inp).1),
      current_step := step.id,
      completed_steps := state.completed_steps ++ [step.id],
      errors :=
        if pyTruthy (metaSuccessVal (BaseAgent.execute agent astats dt ts inp).1)
        then state.errors
        else state.errors ++
          [⟨step.id,
            pyGetD (BaseAgent.execute agent astats dt ts inp).1 "error"
              (PyVal.str "Unknown error"), ts⟩] }, ?_⟩
    simp only [node_function, hagent, hinp]

/-- Witness for C3's amended theorem: the raising resolution escapes, the
reference-free step completes. -/
theorem node_fault_boundary_witness :
    node_function cfg0 agents0 stats0 stepBadResolve 1 "t" st0
      = Except.error ⟨"IndexError", "list index out of range"⟩
    ∧ ∃ st2, node_function cfg0 agents0 stats0 stepOkNode 1 "t" st0 = Except.ok st2 :=
  ⟨(node_fault_boundary cfg0 agents0 stats0 stepBadResolve 1 "t" st0 okAgent rfl).1
      ⟨"IndexError", "list index out of range"⟩ rfl,
   (node_fault_boundary cfg0 agents0 stats0 stepOkNode 1 "t" st0 okAgent rfl).2 [] rfl⟩

/-! ## Claim C9 -/

/-- Resolution reads the run state only through dotted-path reference
lookups: two states indistinguishable under `getNestedFromParts` yield
identical resolutions of every input mapping. Proved by strong induction on
the size of the value being resolved. -/
theorem resolve_readonly_aux (cfg : ConfigModel) (state s2 : List (String × PyVal))
    (hag : ∀ ref : List String,
      getNestedFromParts cfg ref state = getNestedFromParts cfg ref s2) :
    ∀ n : Nat,
      (∀ v : PyVal, sizeOf v ≤ n →
        _resolve_value cfg state v = _resolve_value cfg s2 v)
      ∧ (∀ xs : List PyVal, sizeOf xs ≤ n →
          _resolve_list cfg state xs = _resolve_list cfg s2 xs)
      ∧ (∀ es : List (String × PyVal), sizeOf es ≤ n →
          _resolve_input_references cfg state es = _resolve_input_references cfg s2 es) := by
  intro n
  induction n with
  | zero =>
    refine ⟨?_, ?_, ?_⟩
    · intro v hv; cases v <;> simp_arith at hv
    · intro xs hxs; cases xs <;> simp_arith at hxs
    · intro es hes; cases es <;> simp_arith at hes
  | succ n ih =>
    obtain ⟨ihv, ihl, ihe⟩ := ih
    refine ⟨?_, ?_, ?_⟩
    · intro v hv
      cases v with
      | str s =>
        simp only [_resolve_value]
        by_cases hm : (strIn "\x7b\x7b" s && strIn "\x7d\x7d" s) = true
        · simp only [hm, if_true]
          cases hF : reFirstGroup s with
          | some ref => exact hag (pySplit ref ".")
          | none => rfl
        · simp only [Bool.not_eq_true] at hm
          simp [hm]
      | dict es =>
        have hsz : sizeOf es ≤ n := by
          simp only [PyVal.dict.sizeOf_spec] at hv; omega
        simp only [_resolve_value]
        rw [ihe es hsz]
      | list xs =>
        have hsz : sizeOf xs ≤ n := by
          simp only [PyVal.list.sizeOf_spec] at hv; omega
        simp only [_resolve_value]
        rw [ihl xs hsz]
      | none => rfl
      | bool b => rfl
      | int m => rfl
      | num q => rfl
    · intro xs hxs
      cases xs with
      | nil => rfl
      | cons item rest =>
        have hr : sizeOf rest ≤ n := by
          simp only [List.cons.sizeOf_spec] at hxs; omega
        cases item with
        | dict es =>
          have hes : sizeOf es ≤ n := by
            simp only [List.cons.sizeOf_spec, PyVal.dict.sizeOf_spec] at hxs; omega
          simp only [_resolve_list]
          rw [ihe es hes, ihl rest hr]
        | none => simp only [_resolve_list]; rw [ihl rest hr]
        | bool b => simp only [_resolve_list]; rw [ihl rest hr]
        | int m => simp only [_resolve_list]; rw [ihl rest hr]
        | num q => simp only [_resolve_list]; rw [ihl rest hr]
        | str s => simp only [_resolve_list]; rw [ihl rest hr]
        | list ys => simp only [_resolve_list]; rw [ihl rest hr]
    · intro es hes
      cases es with
      | nil => rfl
      | cons kv rest =>
        obtain ⟨k, v⟩ := kv
        have hr : sizeOf rest ≤ n := by
          simp only [List.cons.sizeOf_spec] at hes; omega
        have hv : sizeOf v ≤ n := by
          simp only [List.cons.sizeOf_spec, Prod.mk.sizeOf_spec] at hes; omega
        simp only [_resolve_input_references]
        rw [ihv v hv, ihe rest hr]

/-- C9: reference resolution is deterministic and side-effect-free with
respect to the run state: resolving the same input mapping twice against the
same state yields identical outputs, and the resolution result depends on the
run state only through read-only dotted-path lookups (two states that answer
every path lookup identically resolve every mapping identically); the
resolution functions return no modified state, mirroring the source, which
only ever calls `get` on the state. -/
theorem resolution_deterministic_and_readonly (cfg : ConfigModel)
    (state inputs : List (String × PyVal)) :
    _resolve_input_references cfg state inputs
      = _resolve_input_references cfg state inputs
    ∧ ∀ s2 : List (String × PyVal),
        (∀ ref : List String,
          getNestedFromParts cfg ref state = getNestedFromParts cfg ref s2) →
        _resolve_input_references cfg state inputs
          = _resolve_input_references cfg s2 inputs :=
  ⟨rfl, fun s2 hag =>
    (resolve_readonly_aux cfg state s2 hag (sizeOf inputs)).2.2 inputs (le_refl _)⟩

/-- Witness for C9 at a concrete mapping and state. -/
theorem resolution_deterministic_and_readonly_witness :
    _resolve_input_references cfg0 (toStateDict st0)
        [("leads", PyVal.str "\x7b\x7bsearch.output.leads\x7d\x7d")]
      = _resolve_input_references cfg0 (toStateDict st0)
        [("leads", PyVal.str "\x7b\x7bsearch.output.leads\x7d\x7d")] :=
  (resolution_deterministic_and_readonly cfg0 (toStateDict st0)
    [("leads", PyVal.str "\x7b\x7bsearch.output.leads\x7d\x7d")]).2
    (toStateDict st0) (fun _ => rfl)
